import Mathlib

/-!
Verification development for the Mikoko Guardian mangrove-conservation module
(src/mikoko_guardian/agent.py), shallowly embedded in Lean 4.

Python strings are Lean strings; Python numbers appearing in the carbon and
restoration calculators are modelled as exact rationals, with the formulas
taken verbatim from the source (3.67 is the rational 367/100, and so on).
A possibly non-numeric argument (the isinstance check in the source) is
modelled as an Option: none stands for a non-numeric value.  Each tool
returns a ToolResponse, the Lean image of the status/report/error_message
dictionary built by the Python code; embedded functions are total, so the
no-raised-fault part of the contract is by construction.
-/

/-- Python str.lower restricted to ASCII data, as used by the source. -/
def pyLower (s : String) : String := String.mk (s.toList.map Char.toLower)

/-- Python str.upper restricted to ASCII data. -/
def pyUpper (s : String) : String := String.mk (s.toList.map Char.toUpper)

/-- Helper for pyTitle: the Bool says whether the previous char was a letter. -/
def pyTitleAux : Bool → List Char → List Char
  | _, [] => []
  | prev, c :: cs => (if prev then c.toLower else c.toUpper) :: pyTitleAux c.isAlpha cs

/-- Python str.title on ASCII data: a letter is uppercased when the previous
character is not a letter, lowercased otherwise. -/
def pyTitle (s : String) : String := String.mk (pyTitleAux false s.toList)

/-- Does the first list occur at the head of the second one. -/
def leadMatch : List Char → List Char → Bool
  | [], _ => true
  | _ :: _, [] => false
  | a :: as, b :: bs => (a == b) && leadMatch as bs

/-- Does the first list occur contiguously anywhere in the second one. -/
def subMatch (needle : List Char) : List Char → Bool
  | [] => needle.isEmpty
  | c :: t => leadMatch needle (c :: t) || subMatch needle t

/-- Python substring containment: needle in hay. -/
def pyIn (needle hay : String) : Bool := subMatch needle.toList hay.toList

/-- One record of the species table. -/
structure SpeciesInfo where
  swahili_name : String
  characteristics : String
  uses : String
  conservation_status : String
deriving Repr, DecidableEq

/-- The static species table, in the insertion order of the Python dict. -/
def KENYA_MANGROVE_SPECIES : List (String × SpeciesInfo) :=
  [ ("rhizophora mucronata",
      { swahili_name := "Mkoko",
        characteristics := "Distinctive prop roots, elongated propagules",
        uses := "Timber, firewood, boat building",
        conservation_status := "Vulnerable in many areas" }),
    ("avicennia marina",
      { swahili_name := "Mchu",
        characteristics := "Grey-green leaves, pencil-like pneumatophores",
        uses := "Medicinal purposes, honey production",
        conservation_status := "Relatively stable" }),
    ("sonneratia alba",
      { swahili_name := "Mlilana",
        characteristics := "White flowers, round fruits, conical pneumatophores",
        uses := "Fruits are edible, wood for construction",
        conservation_status := "Declining in some areas" }),
    ("ceriops tagal",
      { swahili_name := "Mkandaa",
        characteristics := "Small tree, club-shaped propagules with ridges",
        uses := "Dye production, poles for construction",
        conservation_status := "Threatened by harvesting" }),
    ("bruguiera gymnorrhiza",
      { swahili_name := "Muia",
        characteristics := "Knee-like roots, red flowers, long propagules",
        uses := "Construction, charcoal production",
        conservation_status := "Vulnerable" }) ]

/-- One record of the site table. -/
structure SiteInfo where
  county : String
  mangrove_area_hectares : Nat
  dominant_species : List String
  threats : List String
deriving Repr, DecidableEq

/-- The static site table, in the insertion order of the Python dict. -/
def KENYA_COASTAL_REGIONS : List (String × SiteInfo) :=
  [ ("mida creek",
      { county := "Kilifi",
        mangrove_area_hectares := 1600,
        dominant_species := ["rhizophora mucronata", "avicennia marina"],
        threats := ["Tourism development", "Wood harvesting", "Climate change"] }),
    ("gazi bay",
      { county := "Kwale",
        mangrove_area_hectares := 615,
        dominant_species := ["rhizophora mucronata", "sonneratia alba", "ceriops tagal"],
        threats := ["Overharvesting", "Sedimentation", "Coastal erosion"] }),
    ("lamu archipelago",
      { county := "Lamu",
        mangrove_area_hectares := 34000,
        dominant_species := ["rhizophora mucronata", "avicennia marina", "bruguiera gymnorrhiza"],
        threats := ["Port development", "Oil exploration", "Deforestation"] }),
    ("vanga",
      { county := "Kwale",
        mangrove_area_hectares := 4000,
        dominant_species := ["rhizophora mucronata", "avicennia marina"],
        threats := ["Border disputes", "Illegal cutting", "Pollution"] }),
    ("mombasa",
      { county := "Mombasa",
        mangrove_area_hectares := 1900,
        dominant_species := ["avicennia marina", "sonneratia alba"],
        threats := ["Urban expansion", "Pollution", "Port activities"] }) ]

/-- The uniform result shape of every tool: the status string together with
the optional report payload and optional error message of the returned dict. -/
structure ToolResponse (ρ : Type) where
  status : String
  report : Option ρ
  error_message : Option String
deriving Repr, DecidableEq

/-- A success dict, as built by the source on every success path. -/
def mkSuccess {ρ : Type} (rep : ρ) : ToolResponse ρ :=
  { status := "success", report := some rep, error_message := none }

/-- An error dict, as built by the source on every error path. -/
def mkError {ρ : Type} (msg : String) : ToolResponse ρ :=
  { status := "error", report := none, error_message := some msg }

/-- The shape the external runtime depends on: status is success with a
report present, or error with an error message present. -/
def WellShaped {ρ : Type} (r : ToolResponse ρ) : Prop :=
  (r.status = "success" ∧ r.report.isSome = true) ∨
  (r.status = "error" ∧ r.error_message.isSome = true)

/-- The report of identify_mangrove_species. -/
structure SpeciesReport where
  species : String
  swahili_name : String
  characteristics : String
  uses : String
  conservation_status : String
deriving Repr, DecidableEq

/-- The partial-match loop of identify_mangrove_species: first entry whose
key contains the query, is contained in it, or whose Swahili name equals it. -/
def findSpeciesPartial (lower : String) :
    List (String × SpeciesInfo) → Option (String × SpeciesInfo)
  | [] => none
  | (name, info) :: rest =>
      if pyIn lower name || pyIn name lower then some (name, info)
      else if pyLower info.swahili_name == lower then some (name, info)
      else findSpeciesPartial lower rest

/-- Builds the success report of identify_mangrove_species from a display
name and a table record. -/
def mkSpeciesReport (display : String) (info : SpeciesInfo) : SpeciesReport :=
  { species := display,
    swahili_name := info.swahili_name,
    characteristics := info.characteristics,
    uses := info.uses,
    conservation_status := info.conservation_status }

/-- identify_mangrove_species from the source: exact lowercase key match,
then the partial scan, then a not-found error echoing the input. -/
def identify_mangrove_species (species_name : String) : ToolResponse SpeciesReport :=
  match KENYA_MANGROVE_SPECIES.lookup (pyLower species_name) with
  | some info => mkSuccess (mkSpeciesReport (pyTitle species_name) info)
  | none =>
    match findSpeciesPartial (pyLower species_name) KENYA_MANGROVE_SPECIES with
    | some (name, info) => mkSuccess (mkSpeciesReport (pyTitle name) info)
    | none => mkError ("Could not identify mangrove species \x27" ++ species_name ++
        "\x27. Please try using scientific name or Swahili name.")

/-- One resolved species summary inside a site report. -/
structure SpeciesSummary where
  name : String
  swahili_name : String
deriving Repr, DecidableEq

/-- The report of get_site_information. -/
structure SiteReport where
  location : String
  county : String
  mangrove_area_hectares : Nat
  dominant_species : List SpeciesSummary
  threats : List String
deriving Repr, DecidableEq

/-- The partial-match loop of get_site_information: first entry whose key
contains the query, is contained in it, or whose county equals it
(case-insensitively). -/
def findSitePartial (lower : String) :
    List (String × SiteInfo) → Option (String × SiteInfo)
  | [] => none
  | (name, info) :: rest =>
      if pyIn lower name || pyIn name lower || pyLower info.county == lower then
        some (name, info)
      else findSitePartial lower rest

/-- The dominant-species resolution loop: each key present in the species
table contributes a summary; a dangling key is silently skipped. -/
def resolveSpeciesList (species : List String) : List SpeciesSummary :=
  species.filterMap fun sp =>
    match KENYA_MANGROVE_SPECIES.lookup sp with
    | some info => some { name := pyTitle sp, swahili_name := info.swahili_name }
    | none => none

/-- Builds the success report of get_site_information from a display name
and a table record. -/
def mkSiteReport (display : String) (info : SiteInfo) : SiteReport :=
  { location := display,
    county := info.county,
    mangrove_area_hectares := info.mangrove_area_hectares,
    dominant_species := resolveSpeciesList info.dominant_species,
    threats := info.threats }

/-- get_site_information from the source: exact lowercase key match, then
the partial scan, then a not-found error echoing the input. -/
def get_site_information (location : String) : ToolResponse SiteReport :=
  match KENYA_COASTAL_REGIONS.lookup (pyLower location) with
  | some info => mkSuccess (mkSiteReport (pyTitle location) info)
  | none =>
    match findSitePartial (pyLower location) KENYA_COASTAL_REGIONS with
    | some (name, info) => mkSuccess (mkSiteReport (pyTitle name) info)
    | none => mkError ("Information about mangroves in \x27" ++ location ++
        "\x27 is not available in our database.")

/-- The site-lookup resolution rule of get_site_information on its own:
exact key match, else the substring-or-county partial scan.  Returns the
matched canonical key and record. -/
def resolveSite (location : String) : Option (String × SiteInfo) :=
  match KENYA_COASTAL_REGIONS.lookup (pyLower location) with
  | some info => some (pyLower location, info)
  | none => findSitePartial (pyLower location) KENYA_COASTAL_REGIONS

/-- The report of calculate_carbon_storage. -/
structure CarbonReport where
  area_hectares : ℚ
  forest_age : String
  carbon_per_hectare_tons : ℚ
  total_carbon_tons : ℚ
  co2_equivalent_tons : ℚ
  potential_carbon_credit_value_usd : ℚ
  note : String
deriving Repr, DecidableEq

/-- The carbon_rates dict of the source. -/
def carbon_rates : List (String × ℚ) :=
  [("young", 143), ("middle-aged", 297), ("mature", 392)]

/-- The fixed validation message shared by the two calculators. -/
def areaErrorMsg : String :=
  "Please provide a valid positive number for area in hectares."

/-- The fixed disclaimer of the carbon report. -/
def carbonNote : String :=
  "These are estimates based on general studies of Kenyan mangroves. Actual values may vary based on species composition, health, and local conditions."

/-- calculate_carbon_storage from the source.  The area argument is none
when the Python value is not an int or float (the isinstance branch);
otherwise its exact numeric value.  3.67 and the other constants are the
exact rationals of the source literals. -/
def calculate_carbon_storage (area : Option ℚ) (forest_age : String) :
    ToolResponse CarbonReport :=
  match area with
  | none => mkError areaErrorMsg
  | some a =>
    if a ≤ 0 then mkError areaErrorMsg
    else
      let fa0 := pyLower forest_age
      let fa := if (carbon_rates.lookup fa0).isSome then fa0 else "mature"
      let rate := (carbon_rates.lookup fa).getD 0
      let total_carbon := a * rate
      let co2_equivalent := total_carbon * (367 / 100)
      let credit := co2_equivalent * 15
      mkSuccess
        { area_hectares := a,
          forest_age := fa,
          carbon_per_hectare_tons := rate,
          total_carbon_tons := total_carbon,
          co2_equivalent_tons := co2_equivalent,
          potential_carbon_credit_value_usd := credit,
          note := carbonNote }

/-- The report of plan_restoration. -/
structure RestorationReport where
  area_hectares : ℚ
  location : String
  recommended_species : List String
  seedlings_needed : Int
  estimated_timeline_months : Nat
  estimated_cost_kes : ℚ
  estimated_cost_usd : ℚ
  special_considerations : List String
  community_involvement : String
  next_steps : List String
deriving Repr, DecidableEq

/-- The base_costs dict of the source (KES per hectare). -/
def base_costs : List (String × ℚ) :=
  [("site_preparation", 25000), ("seedling_production", 40000), ("planting", 35000),
   ("monitoring_first_year", 20000), ("community_engagement", 15000)]

/-- The fixed community-involvement narrative of the restoration report. -/
def communityStr : String :=
  "Recommended to engage local community members in seedling production, planting, and monitoring to ensure long-term sustainability."

/-- The fixed five next-step strings of the restoration report. -/
def nextStepsList : List String :=
  ["1. Conduct detailed site assessment",
   "2. Engage local community stakeholders",
   "3. Secure necessary permits from Kenya Forest Service",
   "4. Establish community nursery for seedling production",
   "5. Implement planting according to lunar calendar (best during spring tides)"]

/-- The location-customization step of plan_restoration: from the defaults
and the matched site record, the recommended species, timeline,
considerations and adjusted cost.  Only an exact lowercase key match
reaches this step in the source. -/
def customizePlan (area : ℚ) (total_cost : ℚ) (info : SiteInfo) :
    List String × Nat × List String × ℚ :=
  let recommended := info.dominant_species.map pyTitle
  let considerations : List String := []
  let cost := total_cost
  let step1 :=
    if info.threats.contains "Urban expansion" || info.threats.contains "Pollution" then
      (considerations ++ ["Community waste management education essential"],
       cost + 10000 * area)
    else (considerations, cost)
  let step2 :=
    if info.threats.contains "Tourism development" then
      (step1.1 ++ ["Ecotourism integration recommended"], (30 : Nat))
    else (step1.1, 24)
  let step3 :=
    if info.threats.contains "Sedimentation" then
      (step2.1 ++ ["Soil erosion control measures required upland"], step1.2 + 15000 * area)
    else (step2.1, step1.2)
  (recommended, step2.2, step3.1, step3.2)

/-- plan_restoration from the source.  The area argument is none when the
Python value is not an int or float; the location argument is none when
the Python default None is used.  Python truthiness makes an empty string
behave like an absent location. -/
def plan_restoration (area_hectares : Option ℚ) (location : Option String) :
    ToolResponse RestorationReport :=
  match area_hectares with
  | none => mkError areaErrorMsg
  | some area =>
    if area ≤ 0 then mkError areaErrorMsg
    else
      let total_cost := (base_costs.map Prod.snd).sum * area
      let seedlings : Int := ⌊area * 2000⌋
      let defaults : List String × Nat × List String × ℚ :=
        (["Rhizophora mucronata", "Avicennia marina", "Sonneratia alba"], 24, [], total_cost)
      let custom :=
        match location with
        | none => defaults
        | some loc =>
          if loc == "" then defaults
          else
            match KENYA_COASTAL_REGIONS.lookup (pyLower loc) with
            | some info => customizePlan area total_cost info
            | none => defaults
      let finalCost := custom.2.2.2
      mkSuccess
        { area_hectares := area,
          location :=
            match location with
            | none => "Generic plan"
            | some loc => if loc == "" then "Generic plan" else pyTitle loc,
          recommended_species := custom.1,
          seedlings_needed := seedlings,
          estimated_timeline_months := custom.2.1,
          estimated_cost_kes := finalCost,
          estimated_cost_usd := finalCost / 130,
          special_considerations := custom.2.2.1,
          community_involvement := communityStr,
          next_steps := nextStepsList }

/-- The report of answer_general_question. -/
structure AnswerReport where
  question : String
  answer : String
deriving Repr, DecidableEq

/-- The fixed instructional preamble wrapped around the question. -/
def questionPrompt (question : String) : String :=
  "\n        As a mangrove conservation expert, please answer this question:\n        " ++
  question ++
  "\n        \n        Focus on providing accurate, educational information about mangroves, their ecosystems, \n        conservation efforts, and carbon benefits. Include scientific facts where relevant.\n        "

/-- answer_general_question from the source.  The external generative model
call (model construction plus generate_content) is a parameter: ok is the
returned response text, error is the string representation of any raised
exception, which the source catches and converts. -/
def answer_general_question (question : String)
    (generate : String → Except String String) : ToolResponse AnswerReport :=
  match generate (questionPrompt question) with
  | Except.ok text => mkSuccess { question := question, answer := text }
  | Except.error e => mkError ("Unable to answer general question: " ++ e)

/-! ## Shared shape lemmas -/

theorem wellShaped_mkSuccess {ρ : Type} (rep : ρ) : WellShaped (mkSuccess rep) :=
  Or.inl ⟨rfl, rfl⟩

theorem wellShaped_mkError {ρ : Type} (msg : String) :
    WellShaped (mkError (ρ := ρ) msg) :=
  Or.inr ⟨rfl, rfl⟩

theorem identify_wellShaped (s : String) : WellShaped (identify_mangrove_species s) := by
  unfold identify_mangrove_species
  split
  · exact wellShaped_mkSuccess _
  · split
    · exact wellShaped_mkSuccess _
    · exact wellShaped_mkError _

theorem site_wellShaped (s : String) : WellShaped (get_site_information s) := by
  unfold get_site_information
  split
  · exact wellShaped_mkSuccess _
  · split
    · exact wellShaped_mkSuccess _
    · exact wellShaped_mkError _

theorem carbon_wellShaped (a : Option ℚ) (f : String) :
    WellShaped (calculate_carbon_storage a f) := by
  unfold calculate_carbon_storage
  split
  · exact wellShaped_mkError _
  · split
    · exact wellShaped_mkError _
    · exact wellShaped_mkSuccess _

theorem plan_wellShaped (a : Option ℚ) (l : Option String) :
    WellShaped (plan_restoration a l) := by
  unfold plan_restoration
  split
  · exact wellShaped_mkError _
  · split
    · exact wellShaped_mkError _
    · exact wellShaped_mkSuccess _

theorem answer_wellShaped (q : String) (g : String → Except String String) :
    WellShaped (answer_general_question q g) := by
  unfold answer_general_question
  split
  · exact wellShaped_mkSuccess _
  · exact wellShaped_mkError _

/-- C1: every input to each of the five tools yields a mapping whose status
is exactly success or error; on success a report payload is present, on
error a human-readable error message is present; the embedded functions are
total, so no fault is ever raised. -/
theorem C1_uniform_response_shape :
    (∀ s, WellShaped (identify_mangrove_species s)) ∧
    (∀ s, WellShaped (get_site_information s)) ∧
    (∀ a f, WellShaped (calculate_carbon_storage a f)) ∧
    (∀ a l, WellShaped (plan_restoration a l)) ∧
    (∀ q g, WellShaped (answer_general_question q g)) :=
  ⟨identify_wellShaped, site_wellShaped, carbon_wellShaped,
   plan_wellShaped, answer_wellShaped⟩

/-- C2 counterexample: the location string gazi resolves under the site
lookup rule of get_site_information (substring match on the key gazi bay,
whose threats include Sedimentation and whose dominant species differ from
the defaults), yet plan_restoration applies no customization to it: the
cost stays at the base 135000 per hectare (not the 150000 the Sedimentation
adjustment would give) and the recommended species stay the defaults. -/
theorem C2_counterexample :
    (resolveSite "gazi").isSome = true ∧
    (get_site_information "gazi").status = "success" ∧
    (KENYA_COASTAL_REGIONS.lookup "gazi bay").map SiteInfo.threats =
      some ["Overharvesting", "Sedimentation", "Coastal erosion"] ∧
    (plan_restoration (some 1) (some "gazi")).report.map
      RestorationReport.estimated_cost_kes = some 135000 ∧
    (plan_restoration (some 1) (some "gazi")).report.map
      RestorationReport.recommended_species =
      some ["Rhizophora mucronata", "Avicennia marina", "Sonneratia alba"] := by
  refine ⟨by decide, by decide, by decide, ?_, by decide⟩
  have h : (plan_restoration (some 1) (some "gazi")).report.map
      RestorationReport.estimated_cost_kes =
      some ((base_costs.map Prod.snd).sum * 1) := rfl
  rw [h]
  norm_num [base_costs]

/-- C3 counterexample: with the unrecognized but non-empty location string
unknown-place, the report location field is the title-cased input, not the
literal Generic plan marker the claim demands. -/
theorem C3_counterexample :
    (plan_restoration (some 1) (some "unknown-place")).report.map
      RestorationReport.location = some "Unknown-Place" ∧
    "Unknown-Place" ≠ "Generic plan" := by
  decide

/-- C3 amended: plan_restoration with area 1 and the unrecognized location
unknown-place succeeds with the default three recommended species, a
24-month timeline, no special considerations and total cost 135000; the
report location field is the title-cased input Unknown-Place (the Generic
plan marker appears only when the location is absent or empty). -/
theorem C3_amended_unknown_place_defaults :
    (plan_restoration (some 1) (some "unknown-place")).status = "success" ∧
    (plan_restoration (some 1) (some "unknown-place")).report.map
      RestorationReport.recommended_species =
      some ["Rhizophora mucronata", "Avicennia marina", "Sonneratia alba"] ∧
    (plan_restoration (some 1) (some "unknown-place")).report.map
      RestorationReport.estimated_timeline_months = some 24 ∧
    (plan_restoration (some 1) (some "unknown-place")).report.map
      RestorationReport.special_considerations = some [] ∧
    (plan_restoration (some 1) (some "unknown-place")).report.map
      RestorationReport.estimated_cost_kes = some 135000 ∧
    (plan_restoration (some 1) (some "unknown-place")).report.map
      RestorationReport.location = some "Unknown-Place" ∧
    (plan_restoration (some 1) none).report.map
      RestorationReport.location = some "Generic plan" := by
  refine ⟨by decide, by decide, by decide, by decide, ?_, by decide, by decide⟩
  have h : (plan_restoration (some 1) (some "unknown-place")).report.map
      RestorationReport.estimated_cost_kes =
      some ((base_costs.map Prod.snd).sum * 1) := rfl
  rw [h]
  norm_num [base_costs]

/-- C4: plan_restoration with area 1 at gazi bay succeeds with exactly the
Sedimentation adjustment applied to the 135000 base: total cost 150000 KES,
timeline still 24 months, exactly one special consideration appended, and
no Urban expansion, Pollution or Tourism adjustment. -/
theorem C4_gazi_bay_sedimentation_adjustment :
    (plan_restoration (some 1) (some "gazi bay")).status = "success" ∧
    (plan_restoration (some 1) (some "gazi bay")).report.map
      RestorationReport.estimated_cost_kes = some 150000 ∧
    (plan_restoration (some 1) (some "gazi bay")).report.map
      RestorationReport.estimated_timeline_months = some 24 ∧
    (plan_restoration (some 1) (some "gazi bay")).report.map
      RestorationReport.special_considerations =
      some ["Soil erosion control measures required upland"] := by
  refine ⟨by decide, ?_, by decide, by decide⟩
  have h : (plan_restoration (some 1) (some "gazi bay")).report.map
      RestorationReport.estimated_cost_kes =
      some ((base_costs.map Prod.snd).sum * 1 + 15000 * 1) := rfl
  rw [h]
  norm_num [base_costs]

/-- C5: calculate_carbon_storage with area 10 and age mature succeeds with
total carbon 3920, CO2 equivalent 14386.4 and credit value 215796.0,
computed exactly as 10 × 392, then × 3.67, then × 15, with no rounding
(exact rational arithmetic over the source constants). -/
theorem C5_carbon_storage_mature_ten :
    calculate_carbon_storage (some 10) "mature" =
      mkSuccess
        { area_hectares := 10,
          forest_age := "mature",
          carbon_per_hectare_tons := 392,
          total_carbon_tons := 3920,
          co2_equivalent_tons := 14386.4,
          potential_carbon_credit_value_usd := 215796.0,
          note := carbonNote } := by
  have h : calculate_carbon_storage (some 10) "mature" =
      mkSuccess
        { area_hectares := 10,
          forest_age := "mature",
          carbon_per_hectare_tons := (carbon_rates.lookup "mature").getD 0,
          total_carbon_tons := 10 * (carbon_rates.lookup "mature").getD 0,
          co2_equivalent_tons := 10 * (carbon_rates.lookup "mature").getD 0 * (367 / 100),
          potential_carbon_credit_value_usd :=
            10 * (carbon_rates.lookup "mature").getD 0 * (367 / 100) * 15,
          note := carbonNote } := rfl
  rw [h]
  simp only [mkSuccess, ToolResponse.mk.injEq, Option.some.injEq, CarbonReport.mk.injEq]
  simp +decide [carbon_rates, List.lookup]
  norm_num

/-! ## Evaluation helpers for the restoration planner -/

theorem base_cost_sum : ((base_costs.map Prod.snd).sum : ℚ) = 135000 := by
  norm_num [base_costs]

theorem lookup_empty_none : KENYA_COASTAL_REGIONS.lookup (pyLower "") = none := by decide

theorem plan_eval_exact (a : ℚ) (ha : 0 < a) (loc : String) (info : SiteInfo)
    (h : KENYA_COASTAL_REGIONS.lookup (pyLower loc) = some info) :
    plan_restoration (some a) (some loc) =
      mkSuccess
        { area_hectares := a,
          location := pyTitle loc,
          recommended_species := (customizePlan a ((base_costs.map Prod.snd).sum * a) info).1,
          seedlings_needed := ⌊a * 2000⌋,
          estimated_timeline_months := (customizePlan a ((base_costs.map Prod.snd).sum * a) info).2.1,
          estimated_cost_kes := (customizePlan a ((base_costs.map Prod.snd).sum * a) info).2.2.2,
          estimated_cost_usd := (customizePlan a ((base_costs.map Prod.snd).sum * a) info).2.2.2 / 130,
          special_considerations := (customizePlan a ((base_costs.map Prod.snd).sum * a) info).2.2.1,
          community_involvement := communityStr,
          next_steps := nextStepsList } := by
  have hne : (loc == "") = false := by
    rcases hb : (loc == "") with _ | _
    · rfl
    · exfalso
      have hloc : loc = "" := by simpa using hb
      rw [hloc, lookup_empty_none] at h
      exact Option.noConfusion h
  unfold plan_restoration
  simp only [hne, Bool.false_eq_true, if_false, h, if_neg (not_le.mpr ha)]

/-- The site record of gazi bay, used to instantiate witnesses. -/
def gaziBaySite : SiteInfo :=
  { county := "Kwale",
    mangrove_area_hectares := 615,
    dominant_species := ["rhizophora mucronata", "sonneratia alba", "ceriops tagal"],
    threats := ["Overharvesting", "Sedimentation", "Coastal erosion"] }

/-- C2 amended: the location customization of plan_restoration is applied
exactly when the lowercased location is an exact key of the site table (not
under the wider substring-or-county rule of get_site_information); on such
an exact match the recommended species are the site's dominant species
title-cased, the timeline is 30 on a Tourism development threat and 24
otherwise, the cost is the 135000-per-hectare base plus 10000 per hectare
on an Urban expansion or Pollution threat plus 15000 per hectare on a
Sedimentation threat, and the advisories accumulate in that order. -/
theorem C2_customization_only_exact_key (a : ℚ) (ha : 0 < a) (loc : String)
    (info : SiteInfo)
    (h : KENYA_COASTAL_REGIONS.lookup (pyLower loc) = some info) :
    (plan_restoration (some a) (some loc)).report.map
        RestorationReport.recommended_species =
      some (info.dominant_species.map pyTitle) ∧
    (plan_restoration (some a) (some loc)).report.map
        RestorationReport.estimated_timeline_months =
      some (if info.threats.contains "Tourism development" then 30 else 24) ∧
    (plan_restoration (some a) (some loc)).report.map
        RestorationReport.estimated_cost_kes =
      some (135000 * a +
        (if info.threats.contains "Urban expansion" || info.threats.contains "Pollution"
         then 10000 * a else 0) +
        (if info.threats.contains "Sedimentation" then 15000 * a else 0)) ∧
    (plan_restoration (some a) (some loc)).report.map
        RestorationReport.special_considerations =
      some ((if info.threats.contains "Urban expansion" || info.threats.contains "Pollution"
             then ["Community waste management education essential"] else []) ++
            (if info.threats.contains "Tourism development"
             then ["Ecotourism integration recommended"] else []) ++
            (if info.threats.contains "Sedimentation"
             then ["Soil erosion control measures required upland"] else [])) := by
  rw [plan_eval_exact a ha loc info h]
  simp only [mkSuccess, Option.map_some', Option.some.injEq]
  unfold customizePlan
  rcases hUP : (info.threats.contains "Urban expansion" || info.threats.contains "Pollution") with _ | _ <;>
    rcases hT : info.threats.contains "Tourism development" with _ | _ <;>
      rcases hS : info.threats.contains "Sedimentation" with _ | _ <;>
        simp [hUP, hT, hS, base_cost_sum]

/-- C2 amended witness: the exact-key customization instantiated at area 1
and the location GAZI BAY. -/
theorem C2_customization_only_exact_key_witness :
    (0 : ℚ) < 1 ∧
    KENYA_COASTAL_REGIONS.lookup (pyLower "GAZI BAY") = some gaziBaySite ∧
    ((plan_restoration (some 1) (some "GAZI BAY")).report.map
        RestorationReport.recommended_species =
      some (gaziBaySite.dominant_species.map pyTitle) ∧
    (plan_restoration (some 1) (some "GAZI BAY")).report.map
        RestorationReport.estimated_timeline_months =
      some (if gaziBaySite.threats.contains "Tourism development" then 30 else 24) ∧
    (plan_restoration (some 1) (some "GAZI BAY")).report.map
        RestorationReport.estimated_cost_kes =
      some (135000 * 1 +
        (if gaziBaySite.threats.contains "Urban expansion" || gaziBaySite.threats.contains "Pollution"
         then 10000 * 1 else 0) +
        (if gaziBaySite.threats.contains "Sedimentation" then 15000 * 1 else 0)) ∧
    (plan_restoration (some 1) (some "GAZI BAY")).report.map
        RestorationReport.special_considerations =
      some ((if gaziBaySite.threats.contains "Urban expansion" || gaziBaySite.threats.contains "Pollution"
             then ["Community waste management education essential"] else []) ++
            (if gaziBaySite.threats.contains "Tourism development"
             then ["Ecotourism integration recommended"] else []) ++
            (if gaziBaySite.threats.contains "Sedimentation"
             then ["Soil erosion control measures required upland"] else []))) :=
  ⟨by norm_num, by decide,
   C2_customization_only_exact_key 1 (by norm_num) "GAZI BAY" gaziBaySite (by decide)⟩

/-- C6: a non-numeric (none) or non-positive area makes both
calculate_carbon_storage and plan_restoration return the fixed
InvalidArgument error message without performing any calculation. -/
theorem C6_nonpositive_area_error (a : Option ℚ) (f : String) (l : Option String)
    (h : ∀ q, a = some q → q ≤ 0) :
    calculate_carbon_storage a f = mkError areaErrorMsg ∧
    plan_restoration a l = mkError areaErrorMsg := by
  cases a with
  | none => exact ⟨rfl, rfl⟩
  | some q =>
    have hq : q ≤ 0 := h q rfl
    constructor
    · unfold calculate_carbon_storage
      simp only [if_pos hq]
    · unfold plan_restoration
      simp only [if_pos hq]

/-- C6 witness: calculate_carbon_storage and plan_restoration both return
the InvalidArgument error at area -5. -/
theorem C6_nonpositive_area_error_witness :
    (∀ q : ℚ, some (-5 : ℚ) = some q → q ≤ 0) ∧
    (calculate_carbon_storage (some (-5)) "mature" = mkError areaErrorMsg ∧
     plan_restoration (some (-5)) none = mkError areaErrorMsg) := by
  have hh : ∀ q : ℚ, some (-5 : ℚ) = some q → q ≤ 0 := by
    intro q hq
    rw [← Option.some.inj hq]
    norm_num
  exact ⟨hh, C6_nonpositive_area_error (some (-5)) "mature" none hh⟩

/-- C7: for every positive area, an age-class string whose lowercasing is
not one of young, middle-aged, mature yields exactly the same result as
mature; the substitution never produces an error. -/
theorem C7_unknown_age_same_as_mature (a : ℚ) (ha : 0 < a) (s : String)
    (h : pyLower s ∉ ["young", "middle-aged", "mature"]) :
    calculate_carbon_storage (some a) s = calculate_carbon_storage (some a) "mature" := by
  have h1 : pyLower s ≠ "young" := by intro he; exact h (by rw [he]; decide)
  have h2 : pyLower s ≠ "middle-aged" := by intro he; exact h (by rw [he]; decide)
  have h3 : pyLower s ≠ "mature" := by intro he; exact h (by rw [he]; decide)
  have hl : carbon_rates.lookup (pyLower s) = none := by
    simp [carbon_rates, List.lookup, beq_eq_false_iff_ne.mpr h1,
      beq_eq_false_iff_ne.mpr h2, beq_eq_false_iff_ne.mpr h3]
  unfold calculate_carbon_storage
  simp only [hl, Option.isSome_none, Bool.false_eq_true, if_false]
  rfl

/-- C7 witness: at area 10, the age class unknown-age behaves identically
to mature. -/
theorem C7_unknown_age_same_as_mature_witness :
    (0 : ℚ) < 10 ∧ pyLower "unknown-age" ∉ ["young", "middle-aged", "mature"] ∧
    calculate_carbon_storage (some 10) "unknown-age" =
      calculate_carbon_storage (some 10) "mature" :=
  ⟨by norm_num, by decide,
   C7_unknown_age_same_as_mature 10 (by norm_num) "unknown-age" (by decide)⟩

/-- C8: for every canonical key of the species table, looking up the key
itself, its uppercasing, or the record's Swahili name returns a success
report carrying exactly that record (case-insensitive lookup, and local
names resolve). -/
theorem C8_species_lookup_three_ways (name : String) (info : SpeciesInfo)
    (h : (name, info) ∈ KENYA_MANGROVE_SPECIES) :
    identify_mangrove_species name = mkSuccess (mkSpeciesReport (pyTitle name) info) ∧
    identify_mangrove_species (pyUpper name) = mkSuccess (mkSpeciesReport (pyTitle name) info) ∧
    identify_mangrove_species info.swahili_name =
      mkSuccess (mkSpeciesReport (pyTitle name) info) := by
  fin_cases h <;> exact ⟨by decide, by decide, by decide⟩

/-- The first species record, used to instantiate the C8 witness. -/
def mkokoRecord : SpeciesInfo :=
  { swahili_name := "Mkoko",
    characteristics := "Distinctive prop roots, elongated propagules",
    uses := "Timber, firewood, boat building",
    conservation_status := "Vulnerable in many areas" }

/-- C8 witness: the three lookup routes instantiated at the first species
table key. -/
theorem C8_species_lookup_three_ways_witness :
    ("rhizophora mucronata", mkokoRecord) ∈ KENYA_MANGROVE_SPECIES ∧
    (identify_mangrove_species "rhizophora mucronata" =
        mkSuccess (mkSpeciesReport (pyTitle "rhizophora mucronata") mkokoRecord) ∧
     identify_mangrove_species (pyUpper "rhizophora mucronata") =
        mkSuccess (mkSpeciesReport (pyTitle "rhizophora mucronata") mkokoRecord) ∧
     identify_mangrove_species mkokoRecord.swahili_name =
        mkSuccess (mkSpeciesReport (pyTitle "rhizophora mucronata") mkokoRecord)) :=
  ⟨by decide, C8_species_lookup_three_ways "rhizophora mucronata" mkokoRecord (by decide)⟩

/-- C9: in the shipped tables every dominant_species entry of every site is
a key of the species table, and for each site the resolved species-summary
list in the report of get_site_information at the canonical site key has
the same length as the dominant_species list (the silent-skip path is never
taken with the shipped data). -/
theorem C9_dominant_species_all_resolve (lname : String) (info : SiteInfo)
    (h : (lname, info) ∈ KENYA_COASTAL_REGIONS) :
    (∀ sp ∈ info.dominant_species, (KENYA_MANGROVE_SPECIES.lookup sp).isSome = true) ∧
    (get_site_information lname).report.map (fun r => r.dominant_species.length) =
      some info.dominant_species.length := by
  fin_cases h <;> exact ⟨by decide, by decide⟩

/-- The first site record, used to instantiate the C9 witness. -/
def midaCreekSite : SiteInfo :=
  { county := "Kilifi",
    mangrove_area_hectares := 1600,
    dominant_species := ["rhizophora mucronata", "avicennia marina"],
    threats := ["Tourism development", "Wood harvesting", "Climate change"] }

/-- C9 witness: the resolution property instantiated at the first site
table key. -/
theorem C9_dominant_species_all_resolve_witness :
    ("mida creek", midaCreekSite) ∈ KENYA_COASTAL_REGIONS ∧
    ((∀ sp ∈ midaCreekSite.dominant_species,
        (KENYA_MANGROVE_SPECIES.lookup sp).isSome = true) ∧
     (get_site_information "mida creek").report.map (fun r => r.dominant_species.length) =
        some midaCreekSite.dominant_species.length) :=
  ⟨by decide, C9_dominant_species_all_resolve "mida creek" midaCreekSite (by decide)⟩

/-- C10: on every successful call the forest_age report field is the
lowercased age class when that is one of the three recognized values and
mature otherwise, hence always exactly one of young, middle-aged, mature,
regardless of the casing or content of the argument. -/
theorem C10_forest_age_normalized (a : ℚ) (ha : 0 < a) (s : String) :
    (calculate_carbon_storage (some a) s).report.map CarbonReport.forest_age =
      some (if (carbon_rates.lookup (pyLower s)).isSome then pyLower s else "mature") ∧
    (∀ fa, (calculate_carbon_storage (some a) s).report.map CarbonReport.forest_age = some fa →
      fa = "young" ∨ fa = "middle-aged" ∨ fa = "mature") := by
  have hmain : (calculate_carbon_storage (some a) s).report.map CarbonReport.forest_age =
      some (if (carbon_rates.lookup (pyLower s)).isSome then pyLower s else "mature") := by
    unfold calculate_carbon_storage
    simp only [if_neg (not_le.mpr ha)]
    rfl
  refine ⟨hmain, ?_⟩
  intro fa hfa
  rw [hmain] at hfa
  have hfa2 := Option.some.inj hfa
  by_cases h1 : pyLower s = "young"
  · left; rw [← hfa2, h1]; simp [carbon_rates, List.lookup]
  by_cases h2 : pyLower s = "middle-aged"
  · right; left; rw [← hfa2, h2]; simp [carbon_rates, List.lookup]
  by_cases h3 : pyLower s = "mature"
  · right; right; rw [← hfa2, h3]; simp [carbon_rates, List.lookup]
  · right; right
    have hl : carbon_rates.lookup (pyLower s) = none := by
      simp [carbon_rates, List.lookup, beq_eq_false_iff_ne.mpr h1,
        beq_eq_false_iff_ne.mpr h2, beq_eq_false_iff_ne.mpr h3]
    rw [← hfa2, hl]
    rfl

/-- C10 witness: at area 10 with the input MATURE, the resolved forest_age
field is one of the three recognized lowercase values. -/
theorem C10_forest_age_normalized_witness :
    (0 : ℚ) < 10 ∧
    ((calculate_carbon_storage (some 10) "MATURE").report.map CarbonReport.forest_age =
        some (if (carbon_rates.lookup (pyLower "MATURE")).isSome
              then pyLower "MATURE" else "mature") ∧
     (∀ fa, (calculate_carbon_storage (some 10) "MATURE").report.map
          CarbonReport.forest_age = some fa →
        fa = "young" ∨ fa = "middle-aged" ∨ fa = "mature")) :=
  ⟨by norm_num, C10_forest_age_normalized 10 (by norm_num) "MATURE"⟩
